import Mathlib

/-!
Shallow embedding of the NWS Radar VCP animation program
(`RadarAnimation.py`): the pattern catalog, the SAILS/MRLE supplemental
scan inserter, and the sweep state machine, together with theorems
checking the natural-language specification against this code.

Conventions of the embedding:
* Python dicts describing a scan step become the `Step` structure; the
  optional keys `range`, `range_z`, `range_v` become `Option ℚ` fields.
* Python floats are modelled as exact rationals `ℚ` (all catalog
  constants are short decimal literals).
* The mutable attributes of the `RadarApp` object become the
  `RadarState` record; each UI handler becomes a pure state
  transformer. GUI-only effects (widget configuration, canvas drawing,
  button labels, dropdown enabling) are outside the model.
-/

/-- A scan step, as stored in the `patterns` dictionaries of
`build_pattern_sequence`.  `range?` is the single-cone radius (present
when `label ≠ "Z/V"`), while `range_z`/`range_v` are the dual-cone radii
(present when `label = "Z/V"`). -/
structure Step where
  label : String
  angle : String
  speed : ℚ
  cone_width : ℚ
  range? : Option ℚ
  range_z : Option ℚ
  range_v : Option ℚ
deriving DecidableEq, Repr

/-- Helper to build a single-cone step `{"label": l, "angle": a, "speed": s, "cone_width": w, "range": r}`. -/
def mkS (l a : String) (s w r : ℚ) : Step :=
  ⟨l, a, s, w, some r, none, none⟩

/-- Helper to build a dual-cone step `{"label": "Z/V", "angle": a, "speed": s, "cone_width": w, "range_z": rz, "range_v": rv}`. -/
def mkZV (a : String) (s w rz rv : ℚ) : Step :=
  ⟨"Z/V", a, s, w, none, some rz, some rv⟩

/-- A default step used with `List.getD`; never selected on the inputs
the program builds (indices are always in range there). -/
def dummyStep : Step := ⟨"", "", 0, 0, none, none, none⟩

/-- The `"VCP 212"` entry of the `patterns` dict in `build_pattern_sequence`. -/
def vcp212 : List Step := [
  mkS "Z" "0.5°" (-0.35) 8 250,
  mkS "V" "0.5°" (-0.29) 8 74,
  mkS "Z" "0.9°" (-0.35) 8 250,
  mkS "V" "0.9°" (-0.29) 8 74,
  mkS "Z" "1.3°" (-0.38) 8 231,
  mkS "V" "1.3°" (-0.29) 8 74,
  mkZV "1.8°" (-0.43) 8 208 80,
  mkZV "2.4°" (-0.46) 8 181 80,
  mkZV "3.1°" (-0.46) 8 158 80,
  mkZV "4.0°" (-0.46) 8 134 80,
  mkZV "5.1°" (-0.46) 8 113 80,
  mkZV "6.4°" (-0.46) 8 94 80,
  mkS "V" "8.0°" (-0.5) 8 74,
  mkS "V" "10.0°" (-0.5) 8 68,
  mkS "V" "12.5°" (-0.5) 8 63,
  mkS "V" "15.6°" (-0.5) 8 63,
  mkS "V" "19.5°" (-0.5) 8 63]

/-- The `"VCP 35"` entry of the `patterns` dict. -/
def vcp35 : List Step := [
  mkS "Z" "0.5°" (-0.08) 8 250,
  mkS "V" "0.5°" (-0.26) 8 80,
  mkS "Z" "0.9°" (-0.08) 8 250,
  mkS "V" "0.9°" (-0.26) 8 80,
  mkS "Z" "1.3°" (-0.09) 8 231,
  mkS "V" "1.3°" (-0.26) 8 80,
  mkZV "1.8°" (-0.26) 8 208 80,
  mkZV "2.4°" (-0.30) 8 181 80,
  mkZV "3.1°" (-0.29) 8 158 80,
  mkZV "4.0°" (-0.30) 8 134 80,
  mkZV "5.1°" (-0.30) 8 134 80,
  mkZV "6.4°" (-0.30) 8 134 80]

/-- The `"VCP 215"` entry of the `patterns` dict. -/
def vcp215 : List Step := [
  mkS "Z" "0.5°" (-0.19) 8 250,
  mkS "V" "0.5°" (-0.29) 8 74,
  mkS "Z" "0.9°" (-0.22) 8 250,
  mkS "V" "0.9°" (-0.29) 8 74,
  mkS "Z" "1.3°" (-0.26) 8 231,
  mkS "V" "1.3°" (-0.29) 8 74,
  mkZV "1.8°" (-0.29) 8 208 80,
  mkZV "2.4°" (-0.33) 8 181 80,
  mkZV "3.1°" (-0.33) 8 158 80,
  mkZV "4.0°" (-0.33) 8 134 80,
  mkZV "5.1°" (-0.33) 8 134 80,
  mkZV "6.4°" (-0.33) 8 134 80,
  mkS "V" "8.0°" (-0.43) 8 63,
  mkS "V" "10.0°" (-0.43) 8 63,
  mkS "V" "12.0°" (-0.43) 8 63,
  mkS "V" "14.0°" (-0.43) 8 63,
  mkS "V" "16.7°" (-0.43) 8 63,
  mkS "V" "19.5°" (-0.43) 8 63]

/-- The `"VCP 12"` entry of the `patterns` dict. -/
def vcp12 : List Step := [
  mkS "Z" "0.5°" (-0.35) 8 250,
  mkS "V" "0.5°" (-0.40) 8 80,
  mkS "Z" "0.9°" (-0.35) 8 250,
  mkS "V" "0.9°" (-0.40) 8 80,
  mkS "Z" "1.3°" (-0.38) 8 231,
  mkS "V" "1.3°" (-0.40) 8 80,
  mkZV "1.8°" (-0.43) 8 208 80,
  mkZV "2.4°" (-0.43) 8 181 80,
  mkZV "3.1°" (-0.43) 8 158 80,
  mkZV "4.0°" (-0.46) 8 134 80,
  mkZV "5.1°" (-0.43) 8 134 80,
  mkZV "6.4°" (-0.43) 8 134 80,
  mkS "V" "8.0°" (-0.46) 8 74,
  mkS "V" "10.0°" (-0.46) 8 68,
  mkS "V" "12.5°" (-0.46) 8 63,
  mkS "V" "15.6°" (-0.46) 8 63,
  mkS "V" "19.5°" (-0.46) 8 63]

/-- `patterns.get(self.selected_vcp, [])` in `build_pattern_sequence`. -/
def patternsLookup (name : String) : List Step :=
  if name = "VCP 212" then vcp212
  else if name = "VCP 35" then vcp35
  else if name = "VCP 215" then vcp215
  else if name = "VCP 12" then vcp12
  else []

/-- The fixed 2-step SAILS low-level insert block (`sails_scans`). -/
def sails_scans : List Step :=
  [mkS "Z" "0.5°" (-0.5) 8 250,
   mkS "V" "0.5°" (-0.5) 8 80]

/-- `insert_points.get(sails, [])`: the anchor elevation strings for each
SAILS choice. -/
def sailsInsertPoints (sails : String) : List String :=
  if sails = "SAILS 1" then ["3.1°"]
  else if sails = "SAILS 2" then ["1.8°", "6.4°"]
  else if sails = "SAILS 3" then ["1.3°", "4.0°", "8.0°"]
  else []

/-- `pattern[i+1:i+1] = block`: insert `block` at position `i` of `p`
(slice assignment at an empty slice). -/
def insertAt (p : List Step) (i : Nat) (block : List Step) : List Step :=
  p.take i ++ block ++ p.drop i

/-- The index at which the SAILS inner loop
`for i in reversed(range(len(pattern)))` breaks, if any: the loop scans
from the end and stops at the first index whose step has the anchor
angle and — only when `anchor == "1.3°"` and `sails == "SAILS 3"` — the
label `"V"` (an angle match with a different label is passed over
without a break).  Scanning backward and taking the first hit is the
rightmost qualifying index, computed here by preferring the result from
the tail of the list. -/
def sailsFindIdx (sails anchor : String) : List Step → Option Nat
  | [] => none
  | st :: rest =>
    match sailsFindIdx sails anchor rest with
    | some j => some (j + 1)
    | none =>
      if st.angle = anchor then
        if anchor = "1.3°" ∧ sails = "SAILS 3" then
          if st.label = "V" then some 0 else none
        else some 0
      else none

/-- One iteration of `for angle in insert_points.get(sails, [])`:
insert `sails_scans` after the index found by the backward scan, or
leave the pattern unchanged when the scan finds nothing. -/
def applySailsAnchor (sails anchor : String) (p : List Step) : List Step :=
  match sailsFindIdx sails anchor p with
  | some i => insertAt p (i + 1) sails_scans
  | none => p

/-- The SAILS section of `build_pattern_sequence`
(`if sails != "None": ...`). -/
def applySails (sails : String) (p : List Step) : List Step :=
  if sails ≠ "None" then
    (sailsInsertPoints sails).foldl (fun q a => applySailsAnchor sails a q) p
  else p

/-- `int(mrle[-1])`: the digit value of the final character of the MRLE
choice string (`"MRLE 2"/"MRLE 3"/"MRLE 4"` give `2/3/4`). -/
def mrleCount (mrle : String) : Nat :=
  mrle.back.toNat - 48

/-- The `mrle_scans` insert block: four base 0.5°/0.9° steps, two extra
1.3° steps when `count >= 3`, and one combined `"Z/V"` 1.8° step when
`count == 4`. -/
def mrle_scans (count : Nat) : List Step :=
  [mkS "Z" "0.5°" (-0.35) 8 250,
   mkS "V" "0.5°" (-0.40) 8 80,
   mkS "Z" "0.9°" (-0.35) 8 250,
   mkS "V" "0.9°" (-0.40) 8 80] ++
  (if count ≥ 3 then
    [mkS "Z" "1.3°" (-0.38) 8 231,
     mkS "V" "1.3°" (-0.40) 8 80]
   else []) ++
  (if count = 4 then [mkZV "1.8°" (-0.43) 8 208 80] else [])

/-- `[i for i, step in enumerate(pattern) if step["angle"] == "5.1°"]`:
the indices of all steps whose angle text is `"5.1°"`. -/
def mrleInsertPoints (p : List Step) : List Nat :=
  (p.enum.filter (fun ia => ia.2.angle = "5.1°")).map Prod.fst

/-- The MRLE section of `build_pattern_sequence`: applicable only for
`"VCP 212"`/`"VCP 12"` and a non-`"None"` choice; the block is inserted
after `insert_points[-1]` when `insert_points` is non-empty, otherwise
the pattern is returned unchanged. -/
def applyMrle (mrle vcpName : String) (p : List Step) : List Step :=
  if mrle ≠ "None" ∧ (vcpName = "VCP 212" ∨ vcpName = "VCP 12") then
    match (mrleInsertPoints p).getLast? with
    | some i => insertAt p (i + 1) (mrle_scans (mrleCount mrle))
    | none => p
  else p

/-- `build_pattern_sequence`, as a function of the three selection
strings it reads (`self.selected_vcp`, `self.sails_var.get()`,
`self.mrle_var.get()`); returns the new `self.pattern_sequence`. -/
def build_pattern_sequence (vcp sails mrle : String) : List Step :=
  let pattern := patternsLookup vcp
  if pattern.isEmpty then []
  else applyMrle mrle vcp (applySails sails pattern)

/-- The mutable attributes of the `RadarApp` object that the core logic
reads and writes.  `sails_var`/`mrle_var` are the dropdown `StringVar`
values; `sweep_speed`, `cone_angle_width`, `current_label`,
`sweep_radius` are the per-step render parameters loaded by
`advance_pattern_step` (defaulted here, unset in Python until first
loaded). -/
structure RadarState where
  angle : ℚ := 90
  running : Bool := false
  vcp_selected : Bool := false
  selected_vcp : String := ""
  speed_multiplier : Nat := 1
  fast_mode : Nat := 1
  sweep_progress : ℚ := 0
  pattern_step_index : Nat := 0
  pattern_sequence : List Step := []
  sails_var : String := "None"
  mrle_var : String := "None"
  sweep_speed : ℚ := 0
  cone_angle_width : ℚ := 0
  current_label : String := ""
  sweep_radius : ℚ := 0
deriving DecidableEq, Repr

/-- `advance_pattern_step`: report and force `running = False` on an
empty sequence; otherwise clamp an out-of-range step index to 0, reset
`sweep_progress` and `angle`, and load the current step's parameters. -/
def advance_pattern_step (s : RadarState) : RadarState :=
  if s.pattern_sequence.isEmpty then
    { s with running := false }
  else
    let i := if s.pattern_step_index ≥ s.pattern_sequence.length then 0
             else s.pattern_step_index
    let pat := s.pattern_sequence.getD i dummyStep
    { s with
      pattern_step_index := i
      sweep_progress := 0
      angle := 90
      sweep_speed := pat.speed * s.speed_multiplier
      cone_angle_width := pat.cone_width
      current_label := pat.label
      sweep_radius :=
        if pat.label ≠ "Z/V" then (pat.range?).getD 0
        else max ((pat.range_z).getD 0) ((pat.range_v).getD 0) }

/-- `toggle_animation`: no-op (reported) without a selected VCP; from
not-running, reset the step index, advance, reset `angle`, set
`running = True` (and Python then calls `animate()` to begin ticking,
modelled separately by `animate`); from running, clear `running`. -/
def toggle_animation (s : RadarState) : RadarState :=
  if ¬ s.vcp_selected then s
  else if ¬ s.running then
    let s1 := advance_pattern_step { s with pattern_step_index := 0 }
    { s1 with angle := 90, running := true }
  else { s with running := false }

/-- One tick of `animate`: when running, advance the sweep by
`abs(sweep_speed) * 5` degrees; on crossing `-270`, reset the angle,
advance the step index, and either wrap-and-stop at the end of the
sequence or load the next step's parameters. -/
def animate (s : RadarState) : RadarState :=
  if ¬ s.running then s
  else
    let s1 := { s with
      sweep_progress := s.sweep_progress + |s.sweep_speed| * 5
      angle := s.angle - |s.sweep_speed| * 5 }
    if s1.angle ≤ -270 then
      let s2 := { s1 with angle := 90,
                          pattern_step_index := s1.pattern_step_index + 1 }
      if s2.pattern_step_index ≥ s2.pattern_sequence.length then
        { s2 with pattern_step_index := 0, running := false }
      else advance_pattern_step s2
    else s1

/-- `speed_multiply`: cycle `fast_mode` 1→2→3→4→1, set the multiplier to
the matching power of two, and reload the current step when a sequence
is loaded. -/
def speed_multiply (s : RadarState) : RadarState :=
  let fm := s.fast_mode % 4 + 1
  let s1 := { s with fast_mode := fm, speed_multiplier := 2 ^ (fm - 1) }
  if ¬ s1.pattern_sequence.isEmpty then advance_pattern_step s1 else s1

/-- `sails_selected`, invoked after the dropdown has stored `choice` in
`sails_var`: with no VCP selected, reset the var and return; otherwise
enforce exclusion with MRLE (dropdown enabling itself is GUI-only),
stop, reset index and angle, rebuild the sequence and reload. -/
def sails_selected (s : RadarState) (choice : String) : RadarState :=
  let s0 := { s with sails_var := choice }
  if ¬ s0.vcp_selected then { s0 with sails_var := "None" }
  else
    let s1 := if s0.sails_var ≠ "None" then { s0 with mrle_var := "None" } else s0
    let s2 := { s1 with running := false, pattern_step_index := 0, angle := 90 }
    let s3 := { s2 with pattern_sequence :=
      build_pattern_sequence s2.selected_vcp s2.sails_var s2.mrle_var }
    advance_pattern_step s3

/-- `mrle_selected`, invoked after the dropdown has stored `choice` in
`mrle_var`: mirror image of `sails_selected`. -/
def mrle_selected (s : RadarState) (choice : String) : RadarState :=
  let s0 := { s with mrle_var := choice }
  if ¬ s0.vcp_selected then { s0 with mrle_var := "None" }
  else
    let s1 := if s0.mrle_var ≠ "None" then { s0 with sails_var := "None" } else s0
    let s2 := { s1 with running := false, pattern_step_index := 0, angle := 90 }
    let s3 := { s2 with pattern_sequence :=
      build_pattern_sequence s2.selected_vcp s2.sails_var s2.mrle_var }
    advance_pattern_step s3

/-- `set_vcp`: stop, mark a VCP selected, clear both selection vars
(the extra clear of `mrle_var` for non-MRLE VCPs and the SAILS menu
rebuild are kept where the source has them; widget state changes are
GUI-only), then rebuild and reload twice exactly as the source does. -/
def set_vcp (s : RadarState) (name : String) : RadarState :=
  let s1 := { s with running := false, vcp_selected := true,
                     selected_vcp := name, sails_var := "None",
                     mrle_var := "None" }
  let s2 := if name = "VCP 212" ∨ name = "VCP 12" then s1
            else { s1 with mrle_var := "None" }
  let s3 := { s2 with sails_var := "None" }
  let seq1 := build_pattern_sequence s3.selected_vcp s3.sails_var s3.mrle_var
  let s4 := advance_pattern_step { s3 with pattern_sequence := seq1 }
  let s5 := if name = "VCP 212" ∨ name = "VCP 12" then s4
            else { s4 with mrle_var := "None" }
  let seq2 := build_pattern_sequence s5.selected_vcp s5.sails_var s5.mrle_var
  advance_pattern_step { s5 with pattern_sequence := seq2 }

/-! ## Spec-side definitions

These two definitions follow the specification's words (the
`findLastStepWithAngle` lookup contract of §9 and the anchor-resolution
rule of §4.2), for comparison with the source-derived inserter. -/

/-- Modelled from the spec's lookup contract: the index of the last step
of the sequence satisfying `q`, or `none` when no step does. -/
def findLastMatch (q : Step → Prop) [DecidablePred q] : List Step → Option Nat
  | [] => none
  | st :: rest =>
    match findLastMatch q rest with
    | some j => some (j + 1)
    | none => if q st then some 0 else none

/-- Modelled from the spec's insertion rule: insert `block` immediately
after the last step satisfying `q`; when no step satisfies `q`, the
insertion is silently skipped. -/
def specInsertAfterLast (q : Step → Prop) [DecidablePred q]
    (block p : List Step) : List Step :=
  match findLastMatch q p with
  | some i => insertAt p (i + 1) block
  | none => p

/-! ## Equivalence of the source's backward scans with the spec lookup -/

/-- Outside the SAILS 3 / `"1.3°"` special case, the backward scan of
the source stops exactly at the last step whose angle text equals the
anchor, regardless of label. -/
theorem sailsFindIdx_eq_plain (sails anchor : String)
    (h : ¬(anchor = "1.3°" ∧ sails = "SAILS 3")) :
    ∀ p, sailsFindIdx sails anchor p =
      findLastMatch (fun st => st.angle = anchor) p := by
  intro p
  induction p with
  | nil => rfl
  | cons st rest ih =>
    simp only [sailsFindIdx, findLastMatch, ih]
    cases findLastMatch (fun st => st.angle = anchor) rest with
    | some j => rfl
    | none =>
      by_cases ha : st.angle = anchor
      · simp [ha, h]
      · simp [ha]

/-- In the SAILS 3 / `"1.3°"` special case, the backward scan stops
exactly at the last step whose angle text is `"1.3°"` and whose label is
`"V"`. -/
theorem sailsFindIdx_sails3 :
    ∀ p, sailsFindIdx "SAILS 3" "1.3°" p =
      findLastMatch (fun st => st.angle = "1.3°" ∧ st.label = "V") p := by
  intro p
  induction p with
  | nil => rfl
  | cons st rest ih =>
    simp only [sailsFindIdx, findLastMatch, ih]
    cases findLastMatch (fun st => st.angle = "1.3°" ∧ st.label = "V") rest with
    | some j => rfl
    | none =>
      by_cases ha : st.angle = "1.3°"
      · by_cases hl : st.label = "V" <;> simp [ha, hl]
      · simp [ha]

/-- One SAILS anchor application agrees with the spec's
insert-after-last rule outside the special case. -/
theorem applySailsAnchor_eq_spec (sails anchor : String)
    (h : ¬(anchor = "1.3°" ∧ sails = "SAILS 3")) (p : List Step) :
    applySailsAnchor sails anchor p =
      specInsertAfterLast (fun st => st.angle = anchor) sails_scans p := by
  unfold applySailsAnchor specInsertAfterLast
  rw [sailsFindIdx_eq_plain sails anchor h]

/-- One SAILS anchor application in the special case agrees with the
spec's V-label-filtered insert-after-last rule. -/
theorem applySailsAnchor_sails3_eq_spec (p : List Step) :
    applySailsAnchor "SAILS 3" "1.3°" p =
      specInsertAfterLast (fun st => st.angle = "1.3°" ∧ st.label = "V")
        sails_scans p := by
  unfold applySailsAnchor specInsertAfterLast
  rw [sailsFindIdx_sails3]

/-- The index comprehension of the MRLE code, generalized to start
enumeration at offset `n`. -/
def mrleInsertPointsFrom (n : Nat) (p : List Step) : List Nat :=
  ((List.enumFrom n p).filter (fun ia => ia.2.angle = "5.1°")).map Prod.fst

/-- Cons equation for `mrleInsertPointsFrom`. -/
theorem mrleInsertPointsFrom_cons (n : Nat) (st : Step) (rest : List Step) :
    mrleInsertPointsFrom n (st :: rest) =
      (if st.angle = "5.1°" then [n] else []) ++
        mrleInsertPointsFrom (n + 1) rest := by
  unfold mrleInsertPointsFrom
  rw [List.enumFrom_cons, List.filter_cons]
  by_cases ha : st.angle = "5.1°" <;> simp [ha]

/-- A nonempty cons helper: prepending to a non-nil list leaves
`getLast?` untouched. -/
theorem getLast?_cons_ne_nil {α : Type} (a : α) {l : List α} (h : l ≠ []) :
    (a :: l).getLast? = l.getLast? := by
  cases l with
  | nil => exact absurd rfl h
  | cons b bs => exact List.getLast?_cons_cons

/-- The last element of the offset index comprehension is the last
matching index, shifted by the offset. -/
theorem mrleInsertPointsFrom_getLast (p : List Step) :
    ∀ n : Nat, (mrleInsertPointsFrom n p).getLast? =
      (findLastMatch (fun st => st.angle = "5.1°") p).map (· + n) := by
  induction p with
  | nil => intro n; rfl
  | cons st rest ih =>
    intro n
    rw [mrleInsertPointsFrom_cons]
    cases hr : findLastMatch (fun st => st.angle = "5.1°") rest with
    | some j =>
      have htail := ih (n + 1)
      rw [hr] at htail
      have hne : mrleInsertPointsFrom (n + 1) rest ≠ [] := by
        intro hnil
        rw [hnil] at htail
        simp at htail
      rw [List.getLast?_append_of_ne_nil _ hne, htail]
      simp only [findLastMatch, hr]
      have : j + (n + 1) = j + 1 + n := by omega
      simp [this]
    | none =>
      have htail := ih (n + 1)
      rw [hr] at htail
      have hnil : mrleInsertPointsFrom (n + 1) rest = [] :=
        List.getLast?_eq_none_iff.mp (by simpa using htail)
      rw [hnil, List.append_nil]
      by_cases ha : st.angle = "5.1°" <;> simp [findLastMatch, hr, ha]

/-- The MRLE insertion points' last element is the last `"5.1°"` index. -/
theorem mrleInsertPoints_getLast (p : List Step) :
    (mrleInsertPoints p).getLast? =
      findLastMatch (fun st => st.angle = "5.1°") p := by
  have h := mrleInsertPointsFrom_getLast p 0
  have he : mrleInsertPoints p = mrleInsertPointsFrom 0 p := rfl
  rw [he, h]
  cases findLastMatch (fun st => st.angle = "5.1°") p <;> simp

/-- The MRLE branch of `build_pattern_sequence` agrees with the spec's
insert-after-last-`"5.1°"` rule (with skip-on-absence) whenever it is
applicable, and does nothing otherwise. -/
theorem applyMrle_eq_spec (mrle vcpName : String) (p : List Step) :
    applyMrle mrle vcpName p =
      if mrle ≠ "None" ∧ (vcpName = "VCP 212" ∨ vcpName = "VCP 12") then
        specInsertAfterLast (fun st => st.angle = "5.1°")
          (mrle_scans (mrleCount mrle)) p
      else p := by
  unfold applyMrle specInsertAfterLast
  rw [mrleInsertPoints_getLast]

/-- With both selections `"None"`, `build_pattern_sequence` returns the
catalog pattern unchanged. -/
theorem build_pattern_sequence_none (name : String) :
    build_pattern_sequence name "None" "None" = patternsLookup name := by
  unfold build_pattern_sequence applySails applyMrle
  simp only [ne_eq, not_true_eq_false, if_false, false_and, if_neg,
             not_false_eq_true]
  cases h : patternsLookup name <;> simp

/-! ## Claim theorems for the supplemental scan inserter -/

/-- C5: for every non-None SAILS choice, each anchor angle inserts the
fixed 2-step low-level block immediately after the last step of the
pattern whose elevation-angle text equals the anchor string (scanning
from the end backward), and an anchor absent from the pattern is
silently skipped; in particular, applying SAILS 1 to the VCP 212 base
pattern yields a sequence of length 19 (17 + 2) with the two inserted
steps immediately after the last "3.1°" step (index 8). -/
theorem sails_anchor_insertion_rule :
    (∀ sails anchor p, ¬(anchor = "1.3°" ∧ sails = "SAILS 3") →
      applySailsAnchor sails anchor p =
        specInsertAfterLast (fun st => st.angle = anchor) sails_scans p) ∧
    build_pattern_sequence "VCP 212" "SAILS 1" "None" =
      vcp212.take 9 ++ sails_scans ++ vcp212.drop 9 ∧
    (build_pattern_sequence "VCP 212" "SAILS 1" "None").length = 19 ∧
    vcp212.length = 17 ∧
    findLastMatch (fun st => st.angle = "3.1°") vcp212 = some 8 ∧
    (vcp212.getD 8 dummyStep).angle = "3.1°" ∧
    applySailsAnchor "SAILS 3" "8.0°" vcp35 = vcp35 :=
  ⟨fun sails anchor p h => applySailsAnchor_eq_spec sails anchor h p,
   rfl, rfl, rfl, rfl, rfl, rfl⟩

/-- Witness for C5: the rule applied at the concrete combination
SAILS 2 / anchor "6.4°" on the VCP 212 pattern. -/
theorem sails_anchor_insertion_rule_witness :
    ¬("6.4°" = "1.3°" ∧ "SAILS 2" = "SAILS 3") ∧
    applySailsAnchor "SAILS 2" "6.4°" vcp212 =
      specInsertAfterLast (fun st => st.angle = "6.4°") sails_scans vcp212 :=
  ⟨by decide,
   sails_anchor_insertion_rule.1 "SAILS 2" "6.4°" vcp212 (by decide)⟩

/-- C6: the SAILS 3 / "1.3°" anchor only matches a step labelled "V"
(never the Z step at the same angle), while every other anchor/choice
combination matches regardless of label; on VCP 212 with SAILS 3 the
inserted Z@0.5° block's immediate predecessor (index 5) has label "V"
and elevation text "1.3°" even though a Z-labelled "1.3°" step exists at
index 4. -/
theorem sails3_label_filter_rule :
    (∀ sails anchor p, applySailsAnchor sails anchor p =
      if anchor = "1.3°" ∧ sails = "SAILS 3" then
        specInsertAfterLast (fun st => st.angle = "1.3°" ∧ st.label = "V")
          sails_scans p
      else specInsertAfterLast (fun st => st.angle = anchor) sails_scans p) ∧
    ((build_pattern_sequence "VCP 212" "SAILS 3" "None").getD 5 dummyStep).label
      = "V" ∧
    ((build_pattern_sequence "VCP 212" "SAILS 3" "None").getD 5 dummyStep).angle
      = "1.3°" ∧
    (build_pattern_sequence "VCP 212" "SAILS 3" "None").getD 6 dummyStep =
      mkS "Z" "0.5°" (-0.5) 8 250 ∧
    (build_pattern_sequence "VCP 212" "SAILS 3" "None").getD 7 dummyStep =
      mkS "V" "0.5°" (-0.5) 8 80 ∧
    (vcp212.getD 4 dummyStep).angle = "1.3°" ∧
    (vcp212.getD 4 dummyStep).label = "Z" := by
  refine ⟨?_, rfl, rfl, rfl, rfl, rfl, rfl⟩
  intro sails anchor p
  by_cases h : anchor = "1.3°" ∧ sails = "SAILS 3"
  · rw [if_pos h]
    obtain ⟨h1, h2⟩ := h
    subst h1
    subst h2
    exact applySailsAnchor_sails3_eq_spec p
  · rw [if_neg h]
    exact applySailsAnchor_eq_spec sails anchor h p

/-- C7: the MRLE insert block has exactly 4 steps for count 2, 6 for
count 3 and 7 for count 4, and (for VCP 12 or VCP 212 with a non-None
choice) the whole block is inserted immediately after the last step
whose elevation text is "5.1°", with insertion silently skipped when no
such step exists; in particular MRLE 4 on VCP 12 inserts the 7-step
block right after index 10, the last "5.1°" step. -/
theorem mrle_insertion_rule :
    (mrle_scans (mrleCount "MRLE 2")).length = 4 ∧
    (mrle_scans (mrleCount "MRLE 3")).length = 6 ∧
    (mrle_scans (mrleCount "MRLE 4")).length = 7 ∧
    (∀ mrle vcp p, applyMrle mrle vcp p =
      if mrle ≠ "None" ∧ (vcp = "VCP 212" ∨ vcp = "VCP 12") then
        specInsertAfterLast (fun st => st.angle = "5.1°")
          (mrle_scans (mrleCount mrle)) p
      else p) ∧
    build_pattern_sequence "VCP 12" "None" "MRLE 4" =
      vcp12.take 11 ++ mrle_scans 4 ++ vcp12.drop 11 ∧
    findLastMatch (fun st => st.angle = "5.1°") vcp12 = some 10 ∧
    (vcp12.getD 10 dummyStep).angle = "5.1°" ∧
    applyMrle "MRLE 4" "VCP 12" [] = [] :=
  ⟨rfl, rfl, rfl, applyMrle_eq_spec, rfl, rfl, rfl, rfl⟩

/-- C9: building the active sequence with both selections "None" yields
exactly the base pattern, for every VCP name (hence for every base
pattern, the four catalog entries included). -/
theorem build_sequence_none_is_base (name : String) :
    build_pattern_sequence name "None" "None" = patternsLookup name :=
  build_pattern_sequence_none name

/-! ## Claim theorems for the sweep state machine -/

/-- C10: before any VCP is selected, picking a SAILS or MRLE choice only
resets that dropdown variable back to `"None"`; every other field —
sequence, step index, angle, running flag, the other selection — is
untouched and no rebuild happens. -/
theorem idle_selection_resets_choice (s : RadarState) (choice : String)
    (h : s.vcp_selected = false) :
    sails_selected s choice = { s with sails_var := "None" } ∧
    mrle_selected s choice = { s with mrle_var := "None" } := by
  constructor
  · unfold sails_selected
    simp [h]
  · unfold mrle_selected
    simp [h]

/-- An idle start-up state: all fields at their defaults, no VCP
selected. -/
def idleState : RadarState := {}

/-- Witness for C10: the idle start-up state with the choice
`"SAILS 2"`. -/
theorem idle_selection_resets_choice_witness :
    idleState.vcp_selected = false ∧
    (sails_selected idleState "SAILS 2" = { idleState with sails_var := "None" } ∧
     mrle_selected idleState "SAILS 2" = { idleState with mrle_var := "None" }) :=
  ⟨rfl, idle_selection_resets_choice idleState "SAILS 2" rfl⟩

/-- A state in which a VCP is marked selected but the active sequence is
empty (reachable only for a VCP name with no catalog entry). -/
def emptySeqState : RadarState :=
  { vcp_selected := true, selected_vcp := "VCP 99" }

/-- C3 (divergence): with a VCP selected but an empty sequence,
`advance_pattern_step`'s own guard reports the condition and forces
`running = false`, yet `toggle_animation` then unconditionally sets
`running = true`, resets the step index and angle, and starts ticking —
the animation does start, contradicting the defensive intent. -/
theorem toggle_with_empty_sequence_starts :
    emptySeqState.pattern_sequence = [] ∧
    emptySeqState.vcp_selected = true ∧
    (advance_pattern_step emptySeqState).running = false ∧
    (toggle_animation emptySeqState).running = true ∧
    (toggle_animation emptySeqState).pattern_step_index = 0 ∧
    (toggle_animation emptySeqState).angle = 90 :=
  ⟨rfl, rfl, rfl, rfl, rfl, rfl⟩

/-- Field-level description of `set_vcp` for any VCP name with a
non-empty catalog entry: the machine stops, both selections clear, the
sequence is rebuilt from the catalog, the angle resets to 90, and the
parameters of the step at the resulting index are loaded; the step index
is clamped to 0 only when the prior value is out of range for the new
sequence, and otherwise preserved. -/
theorem set_vcp_fields (s : RadarState) (name : String)
    (hne : (patternsLookup name).isEmpty = false) :
    (set_vcp s name).running = false ∧
    (set_vcp s name).vcp_selected = true ∧
    (set_vcp s name).selected_vcp = name ∧
    (set_vcp s name).sails_var = "None" ∧
    (set_vcp s name).mrle_var = "None" ∧
    (set_vcp s name).pattern_sequence = patternsLookup name ∧
    (set_vcp s name).angle = 90 ∧
    (set_vcp s name).pattern_step_index =
      (if s.pattern_step_index ≥ (patternsLookup name).length then 0
       else s.pattern_step_index) ∧
    (set_vcp s name).sweep_speed =
      ((patternsLookup name).getD
        (if s.pattern_step_index ≥ (patternsLookup name).length then 0
         else s.pattern_step_index) dummyStep).speed * (s.speed_multiplier : ℚ) ∧
    (set_vcp s name).current_label =
      ((patternsLookup name).getD
        (if s.pattern_step_index ≥ (patternsLookup name).length then 0
         else s.pattern_step_index) dummyStep).label := by
  have hb : build_pattern_sequence name "None" "None" = patternsLookup name :=
    build_pattern_sequence_none name
  have hlen : 0 < (patternsLookup name).length := by
    cases hp : patternsLookup name
    · rw [hp] at hne
      simp at hne
    · simp
  have hlen0 : ¬((patternsLookup name).length ≤ 0) := Nat.not_le.mpr hlen
  by_cases hi : s.pattern_step_index ≥ (patternsLookup name).length
  · unfold set_vcp advance_pattern_step
    simp [hb, hne, hi, hlen0]
  · unfold set_vcp advance_pattern_step
    simp [hb, hne, hi]

/-- A stopped mid-sequence state on VCP 212: step index 5, angle 37
(reachable by running VCP 212 into step 5 and toggling stop). -/
def c1MidState : RadarState :=
  { angle := 37, running := false, vcp_selected := true,
    selected_vcp := "VCP 212", pattern_step_index := 5,
    pattern_sequence := vcp212, speed_multiplier := 1 }

/-- C1 counterexample: selecting VCP 35 from a state whose step index is
5 leaves the step index at 5 (`set_vcp` never resets it), so the machine
loads step 5's parameters (label "V") instead of the first step's
(label "Z") — contradicting "stepIndex equal to 0" and "the first step's
parameters loaded". -/
theorem set_vcp_step_index_counterexample :
    c1MidState.pattern_step_index = 5 ∧
    (set_vcp c1MidState "VCP 35").pattern_step_index = 5 ∧
    (set_vcp c1MidState "VCP 35").pattern_step_index ≠ 0 ∧
    (set_vcp c1MidState "VCP 35").current_label = "V" ∧
    (vcp35.getD 0 dummyStep).label = "Z" :=
  ⟨rfl, rfl, by decide, rfl, rfl⟩

/-- C1 amended: for every state and any of the four VCP names,
`selectVcp` leaves the machine Stopped with both selections cleared to
None, the sequence rebuilt from the catalog, the angle reset to 90, and
the parameters of the step at the resulting index loaded — where the
resulting step index is the prior one when still in range for the new
sequence, and 0 only when the prior one is out of range (so the first
step's parameters are loaded only in that case). -/
theorem set_vcp_amended (s : RadarState) (name : String)
    (h : name = "VCP 12" ∨ name = "VCP 35" ∨ name = "VCP 212" ∨
         name = "VCP 215") :
    (set_vcp s name).running = false ∧
    (set_vcp s name).vcp_selected = true ∧
    (set_vcp s name).selected_vcp = name ∧
    (set_vcp s name).sails_var = "None" ∧
    (set_vcp s name).mrle_var = "None" ∧
    (set_vcp s name).pattern_sequence = patternsLookup name ∧
    (set_vcp s name).angle = 90 ∧
    (set_vcp s name).pattern_step_index =
      (if s.pattern_step_index ≥ (patternsLookup name).length then 0
       else s.pattern_step_index) ∧
    (set_vcp s name).sweep_speed =
      ((patternsLookup name).getD
        (if s.pattern_step_index ≥ (patternsLookup name).length then 0
         else s.pattern_step_index) dummyStep).speed * (s.speed_multiplier : ℚ) ∧
    (set_vcp s name).current_label =
      ((patternsLookup name).getD
        (if s.pattern_step_index ≥ (patternsLookup name).length then 0
         else s.pattern_step_index) dummyStep).label := by
  have hne : (patternsLookup name).isEmpty = false := by
    rcases h with h | h | h | h <;> subst h <;> rfl
  exact set_vcp_fields s name hne

/-- Witness for C1's amended theorem: VCP 35 selected from the stopped
mid-sequence VCP 212 state with step index 5. -/
theorem set_vcp_amended_witness :
    ("VCP 35" = "VCP 12" ∨ "VCP 35" = "VCP 35" ∨ "VCP 35" = "VCP 212" ∨
     "VCP 35" = "VCP 215") ∧
    ((set_vcp c1MidState "VCP 35").running = false ∧
     (set_vcp c1MidState "VCP 35").vcp_selected = true ∧
     (set_vcp c1MidState "VCP 35").selected_vcp = "VCP 35" ∧
     (set_vcp c1MidState "VCP 35").sails_var = "None" ∧
     (set_vcp c1MidState "VCP 35").mrle_var = "None" ∧
     (set_vcp c1MidState "VCP 35").pattern_sequence = patternsLookup "VCP 35" ∧
     (set_vcp c1MidState "VCP 35").angle = 90 ∧
     (set_vcp c1MidState "VCP 35").pattern_step_index =
       (if c1MidState.pattern_step_index ≥ (patternsLookup "VCP 35").length
        then 0 else c1MidState.pattern_step_index) ∧
     (set_vcp c1MidState "VCP 35").sweep_speed =
       ((patternsLookup "VCP 35").getD
         (if c1MidState.pattern_step_index ≥ (patternsLookup "VCP 35").length
          then 0 else c1MidState.pattern_step_index) dummyStep).speed *
         (c1MidState.speed_multiplier : ℚ) ∧
     (set_vcp c1MidState "VCP 35").current_label =
       ((patternsLookup "VCP 35").getD
         (if c1MidState.pattern_step_index ≥ (patternsLookup "VCP 35").length
          then 0 else c1MidState.pattern_step_index) dummyStep).label) :=
  ⟨Or.inr (Or.inl rfl),
   set_vcp_amended c1MidState "VCP 35" (Or.inr (Or.inl rfl))⟩

/-- A mid-sequence state on VCP 212: step index 5, sweep angle 37. -/
def c2MidState : RadarState :=
  { angle := 37, running := true, vcp_selected := true,
    selected_vcp := "VCP 212", pattern_step_index := 5,
    pattern_sequence := vcp212 }

/-- C2 counterexample: with a non-empty sequence loaded and the sweep at
angle 37, `speed_multiply` resets the angle to 90 — the angle is not
left unchanged as claimed. -/
theorem speed_multiply_changes_angle_counterexample :
    c2MidState.pattern_sequence ≠ [] ∧
    c2MidState.angle = 37 ∧
    (speed_multiply c2MidState).angle = 90 ∧
    (speed_multiply c2MidState).angle ≠ c2MidState.angle := by
  refine ⟨by simp [c2MidState, vcp212], rfl, rfl, ?_⟩
  rw [show (speed_multiply c2MidState).angle = 90 from rfl,
      show c2MidState.angle = 37 from rfl]
  norm_num

/-- C2 amended: with a non-empty sequence and an in-range step index,
`speed_multiply` advances the multiplier cycle and reloads the current
step's effective speed (`baseSpeed * newMultiplier`), leaving the step
index and sequence unchanged — but it resets the angle to 90 and the
sweep progress to 0 rather than leaving the angle unchanged. -/
theorem speed_multiply_reloads_current_step (s : RadarState)
    (h1 : s.pattern_sequence.isEmpty = false)
    (h2 : s.pattern_step_index < s.pattern_sequence.length) :
    (speed_multiply s).speed_multiplier = 2 ^ (s.fast_mode % 4 + 1 - 1) ∧
    (speed_multiply s).sweep_speed =
      (s.pattern_sequence.getD s.pattern_step_index dummyStep).speed *
        ((2 ^ (s.fast_mode % 4 + 1 - 1) : Nat) : ℚ) ∧
    (speed_multiply s).pattern_step_index = s.pattern_step_index ∧
    (speed_multiply s).pattern_sequence = s.pattern_sequence ∧
    (speed_multiply s).angle = 90 ∧
    (speed_multiply s).sweep_progress = 0 := by
  have hnotge : ¬ s.pattern_step_index ≥ s.pattern_sequence.length :=
    Nat.not_le.mpr h2
  unfold speed_multiply advance_pattern_step
  simp [h1, hnotge]

/-- Witness for C2's amended theorem: the mid-sequence VCP 212 state. -/
theorem speed_multiply_reloads_current_step_witness :
    c2MidState.pattern_sequence.isEmpty = false ∧
    c2MidState.pattern_step_index < c2MidState.pattern_sequence.length ∧
    ((speed_multiply c2MidState).speed_multiplier =
        2 ^ (c2MidState.fast_mode % 4 + 1 - 1) ∧
     (speed_multiply c2MidState).sweep_speed =
        (c2MidState.pattern_sequence.getD c2MidState.pattern_step_index
            dummyStep).speed *
          ((2 ^ (c2MidState.fast_mode % 4 + 1 - 1) : Nat) : ℚ) ∧
     (speed_multiply c2MidState).pattern_step_index =
        c2MidState.pattern_step_index ∧
     (speed_multiply c2MidState).pattern_sequence =
        c2MidState.pattern_sequence ∧
     (speed_multiply c2MidState).angle = 90 ∧
     (speed_multiply c2MidState).sweep_progress = 0) :=
  ⟨rfl, by decide,
   speed_multiply_reloads_current_step c2MidState rfl (by decide)⟩

/-- C4: while running, on a tick whose decremented angle reaches − or
passes −270, the step index increases by exactly one; if that reaches
the sequence length the index wraps to 0 and running becomes false
(auto-stop after one full pass), otherwise the new step's parameters are
loaded and the angle is reset to 90. -/
theorem animate_boundary_advances_one (s : RadarState)
    (hrun : s.running = true)
    (hne : s.pattern_sequence.isEmpty = false)
    (hcross : s.angle - |s.sweep_speed| * 5 ≤ -270) :
    (s.pattern_step_index + 1 ≥ s.pattern_sequence.length →
      (animate s).pattern_step_index = 0 ∧
      (animate s).running = false ∧
      (animate s).angle = 90 ∧
      (animate s).pattern_sequence = s.pattern_sequence) ∧
    (s.pattern_step_index + 1 < s.pattern_sequence.length →
      (animate s).pattern_step_index = s.pattern_step_index + 1 ∧
      (animate s).running = true ∧
      (animate s).angle = 90 ∧
      (animate s).pattern_sequence = s.pattern_sequence ∧
      (animate s).sweep_speed =
        (s.pattern_sequence.getD (s.pattern_step_index + 1) dummyStep).speed *
          (s.speed_multiplier : ℚ) ∧
      (animate s).current_label =
        (s.pattern_sequence.getD (s.pattern_step_index + 1) dummyStep).label) := by
  constructor
  · intro hge
    unfold animate
    simp [hrun, hcross, hge]
  · intro hlt
    have hnotge : ¬ s.pattern_step_index + 1 ≥ s.pattern_sequence.length :=
      Nat.not_le.mpr hlt
    unfold animate advance_pattern_step
    simp [hrun, hcross, hnotge, hne]

/-- The last step (index 16) of VCP 212, running, with the sweep exactly
at the −270 boundary and a zero sweep speed. -/
def c4EndState : RadarState :=
  { angle := -270, running := true, vcp_selected := true,
    selected_vcp := "VCP 212", pattern_step_index := 16,
    pattern_sequence := vcp212 }

/-- Witness for C4: ticking the boundary state at the last step of
VCP 212 wraps the index to 0 and stops. -/
theorem animate_boundary_advances_one_witness :
    c4EndState.running = true ∧
    c4EndState.pattern_sequence.isEmpty = false ∧
    c4EndState.angle - |c4EndState.sweep_speed| * 5 ≤ -270 ∧
    ((c4EndState.pattern_step_index + 1 ≥ c4EndState.pattern_sequence.length →
      (animate c4EndState).pattern_step_index = 0 ∧
      (animate c4EndState).running = false ∧
      (animate c4EndState).angle = 90 ∧
      (animate c4EndState).pattern_sequence = c4EndState.pattern_sequence) ∧
    (c4EndState.pattern_step_index + 1 < c4EndState.pattern_sequence.length →
      (animate c4EndState).pattern_step_index =
        c4EndState.pattern_step_index + 1 ∧
      (animate c4EndState).running = true ∧
      (animate c4EndState).angle = 90 ∧
      (animate c4EndState).pattern_sequence = c4EndState.pattern_sequence ∧
      (animate c4EndState).sweep_speed =
        (c4EndState.pattern_sequence.getD (c4EndState.pattern_step_index + 1)
            dummyStep).speed * (c4EndState.speed_multiplier : ℚ) ∧
      (animate c4EndState).current_label =
        (c4EndState.pattern_sequence.getD (c4EndState.pattern_step_index + 1)
            dummyStep).label)) :=
  ⟨rfl, rfl, by simp [c4EndState],
   animate_boundary_advances_one c4EndState rfl rfl (by simp [c4EndState])⟩

/-- A running state at the first step of VCP 212 with multiplier 1 and
the loaded sweep speed −0.35. -/
def c8RunState : RadarState :=
  { angle := 90, running := true, vcp_selected := true,
    selected_vcp := "VCP 212", pattern_step_index := 0,
    pattern_sequence := vcp212, sweep_speed := -0.35,
    speed_multiplier := 1, fast_mode := 1, current_label := "Z",
    cone_angle_width := 8, sweep_radius := 250 }

/-- C8: while running with the current step's effective speed loaded
(`sweep_speed = baseSpeed * multiplier`), a non-boundary tick decreases
the angle by exactly `abs(baseSpeed) * multiplier * 5` degrees; in
particular, from angle 90 with step speed −0.35 and multiplier 1 one
tick yields angle 88.25. -/
theorem tick_decrement_rule :
    (∀ s : RadarState, ∀ pat : Step, s.running = true →
      s.sweep_speed = pat.speed * (s.speed_multiplier : ℚ) →
      ¬(s.angle - |s.sweep_speed| * 5 ≤ -270) →
      (animate s).angle = s.angle - |pat.speed| * (s.speed_multiplier : ℚ) * 5 ∧
      (animate s).pattern_step_index = s.pattern_step_index ∧
      (animate s).running = true) ∧
    c8RunState.angle = 90 ∧
    c8RunState.sweep_speed = -0.35 ∧
    c8RunState.speed_multiplier = 1 ∧
    (animate c8RunState).angle = 88.25 := by
  have habs : |(-0.35 : ℚ)| = 0.35 := by
    rw [abs_of_neg] <;> norm_num
  refine ⟨?_, rfl, rfl, rfl, ?_⟩
  · intro s pat hrun hload hnb
    have hstep : animate s = { s with
        sweep_progress := s.sweep_progress + |s.sweep_speed| * 5,
        angle := s.angle - |s.sweep_speed| * 5 } := by
      unfold animate
      rw [if_neg (show ¬¬(s.running = true) from not_not_intro hrun)]
      exact if_neg hnb
    refine ⟨?_, by rw [hstep], by rw [hstep]; exact hrun⟩
    rw [hstep]
    show s.angle - |s.sweep_speed| * 5 =
      s.angle - |pat.speed| * (s.speed_multiplier : ℚ) * 5
    rw [hload, abs_mul, Nat.abs_cast]
  · have habs2 : |(7 / 20 : ℚ)| = 7 / 20 := abs_of_nonneg (by norm_num)
    norm_num [animate, c8RunState, habs2]

/-- A running state with zero loaded sweep speed, used to witness C8's
general tick rule. -/
def c8wState : RadarState :=
  { angle := 90, running := true, sweep_speed := 0, speed_multiplier := 1,
    pattern_sequence := vcp212 }

/-- Witness for C8: the tick rule applied at the zero-speed running
state with the default step. -/
theorem tick_decrement_rule_witness :
    c8wState.running = true ∧
    c8wState.sweep_speed = dummyStep.speed * (c8wState.speed_multiplier : ℚ) ∧
    ¬(c8wState.angle - |c8wState.sweep_speed| * 5 ≤ -270) ∧
    ((animate c8wState).angle =
        c8wState.angle - |dummyStep.speed| * (c8wState.speed_multiplier : ℚ) * 5 ∧
     (animate c8wState).pattern_step_index = c8wState.pattern_step_index ∧
     (animate c8wState).running = true) :=
  ⟨rfl, by simp [c8wState, dummyStep],
   by simp only [c8wState, abs_zero, zero_mul, sub_zero]; decide,
   tick_decrement_rule.1 c8wState dummyStep rfl (by simp [c8wState, dummyStep])
     (by simp only [c8wState, abs_zero, zero_mul, sub_zero]; decide)⟩
